import Mathlib

/-!
Shallow embedding of the DataNexus client examples (python-sdk/x402_example.py,
python-sdk/datanexus_client.py, demo_x402_complete_flow.py) and proofs about
the claims of the specification.

The embedding models each Python function as a pure Lean function.  External
effects (RPC submission outcomes, HTTP responses, JSON parse results) are
passed in explicitly as oracle arguments; exceptions are modelled with
`Except`/`Option`; Python truthiness of optional strings (`None` and `""` are
falsy) is modelled by `pyTruthy`.
-/

namespace DataNexus

/-! ## Payment executor: `SimpleX402Client._transfer_usdc`

The Python loop is

    for attempt in range(max_retries):
        try:
            ... build transaction, send ...
            signature = str(result.value)
            try:
                ... confirm_transaction ...
            except Exception as e:
                # confirmation failure only logged
            return signature
        except Exception as e:
            if attempt < max_retries - 1:
                wait_time = (attempt + 1) * 2
                time.sleep(wait_time)
            else:
                raise Exception(f"Failed to send transaction after ...: ...")

The outcome of the body of attempt `i` (everything up to and including
`send_transaction`, plus whether the confirmation poll raised) is supplied by
an oracle `env : Nat → SubmitOutcome`. -/

/-- Outcome of one submission attempt: the attempt body raises (`fail msg`),
or `send_transaction` succeeds with signature `sig` and the confirmation
poll succeeds iff `confirmOk` (a confirmation exception is caught inside). -/
inductive SubmitOutcome where
  | fail (msg : String)
  | success (sig : String) (confirmOk : Bool)
deriving DecidableEq

/-- Whether an attempt outcome is a submission failure. -/
def SubmitOutcome.isFail : SubmitOutcome → Bool
  | .fail _ => true
  | .success _ _ => false

deriving instance DecidableEq for Except

/-- Trace of a `_transfer_usdc` run: `result` is `some (.ok sig)` when the
function returns `sig`, `some (.error msg)` when it raises, `none` when the
`for` loop falls off the end (Python would return `None`; only possible with
`maxRetries = 0`); `sleeps` lists the `time.sleep` durations in seconds in
order; `attemptsUsed` counts loop iterations executed. -/
structure TransferTrace where
  result : Option (Except String String)
  sleeps : List Nat
  attemptsUsed : Nat
deriving DecidableEq

/-- The retry loop of `_transfer_usdc`, iterating over the listed attempt
indices (`List.range maxRetries` at the entry point). -/
def transferGo (env : Nat → SubmitOutcome) (maxRetries : Nat) :
    List Nat → TransferTrace
  | [] => ⟨none, [], 0⟩
  | i :: rest =>
    match env i with
    | .success sig _confirmOk => ⟨some (.ok sig), [], 1⟩
    | .fail msg =>
      if i < maxRetries - 1 then
        let t := transferGo env maxRetries rest
        ⟨t.result, (i + 1) * 2 :: t.sleeps, t.attemptsUsed + 1⟩
      else
        ⟨some (.error ("Failed to send transaction after " ++
            toString maxRetries ++ " attempts: " ++ msg)), [], 1⟩

/-- `SimpleX402Client._transfer_usdc` with its submission oracle; the default
`max_retries` in the source is `3`. -/
def transferUsdc (env : Nat → SubmitOutcome) (maxRetries : Nat := 3) :
    TransferTrace :=
  transferGo env maxRetries (List.range maxRetries)

/-- An environment in which every submission attempt fails. -/
def allFailEnv (msg : String) : Nat → SubmitOutcome := fun _ => .fail msg

/-! ## RPC endpoint fallback: `SimpleX402Client._init_solana_client` -/

/-- `self.backup_rpc_urls` from the constructor. -/
def backupRpcUrls : List String :=
  ["https://api.devnet.solana.com",
   "https://rpc.ankr.com/solana_devnet",
   "https://solana-devnet-rpc.allthatnode.com"]

/-- The backup loop of `_init_solana_client`: skip the entry equal to the
primary URL, adopt the first backup whose `get_latest_blockhash` probe
(`env`) succeeds, raise when the list is exhausted. -/
def tryBackups (env : String → Bool) (primary : String) :
    List String → Except String String
  | [] => .error "Failed to connect to any Solana RPC node"
  | u :: rest =>
    if u = primary then tryBackups env primary rest
    else if env u then .ok u
    else tryBackups env primary rest

/-- `_init_solana_client`: probe the primary endpoint, then the backups. -/
def initSolanaClient (env : String → Bool) (primary : String) :
    Except String String :=
  if env primary then .ok primary
  else tryBackups env primary backupRpcUrls

/-- Specification-style restatement (for the refinement proof): the adopted
endpoint is the first responding one in the ordered list made of the primary
followed by the backups other than the primary; a connectivity error when
none responds. -/
def firstRespondingRpc (env : String → Bool) (primary : String) :
    Except String String :=
  match (primary :: backupRpcUrls.filter (fun u => u ≠ primary)).find? env with
  | some u => .ok u
  | none => .error "Failed to connect to any Solana RPC node"

/-- Client state built by `SimpleX402Client.__init__`: the adopted RPC URL
(selected exactly once, here) and whether a signing keypair was loaded. -/
structure ClientState where
  solanaRpcUrl : String
  hasKeypair : Bool
deriving DecidableEq

/-- `SimpleX402Client.__init__`: RPC selection happens here, once; an
`Except.error` models the constructor raising when every endpoint fails. -/
def clientInit (env : String → Bool) (primary : String) (hasKey : Bool) :
    Except String ClientState :=
  (initSolanaClient env primary).map fun u => ⟨u, hasKey⟩

/-! ## Python truthiness helpers -/

/-- Python truthiness of an optional string: `None` and `""` are falsy. -/
def pyTruthy : Option String → Bool
  | none => false
  | some s => s ≠ ""

/-- Python `a or b` on optional strings: yields `a` unless `a` is falsy. -/
def pyOr (a b : Option String) : Option String :=
  if pyTruthy a then a else b

/-! ## Payment-required detector

`DataNexusClient.download_dataset` (datanexus_client.py) builds a
`payment_info` dict from a 402 response: it first tries to parse the JSON
body (`try: body = response.json(); error_details = body.get('error',
{}).get('details', {}) ... except: <headers-only fallback>`).  The body parse
result is modelled by `Option ErrorDetails`: `none` when anything in the
`try` block raises (JSON decode failure, non-dict body, non-dict `error` or
`details` values), `some bf` when it succeeds with the listed fields. -/

/-- Fields reachable through the parsed 402 error body: `price`, `currency`,
`network` live under `body['error']['details']`, `message` under
`body['error']`; `none` models an absent key.  JSON values are abstracted as
strings (their content is passed through, never inspected). -/
structure ErrorDetails where
  price : Option String
  currency : Option String
  network : Option String
  message : Option String
deriving DecidableEq

/-- The `payment_info` dict of `DataNexusClient.download_dataset`. -/
structure PaymentInfo where
  paymentRequired : Bool
  amount : Option String
  currency : Option String
  recipient : Option String
  network : Option String
  message : Option String
deriving DecidableEq

/-- The 402 parser of `DataNexusClient.download_dataset`: headers with
`or`-fallback to body fields when the body parsed, headers with plain
`dict.get` defaults otherwise. -/
def parse402 (h : String → Option String) (body : Option ErrorDetails) :
    PaymentInfo :=
  match body with
  | some bf =>
    { paymentRequired := true
      amount := pyOr (h "x-payment-amount") bf.price
      currency := pyOr (h "x-payment-currency") (some (bf.currency.getD "USDC"))
      recipient := h "x-payment-recipient"
      network := pyOr (h "x-payment-network") (some (bf.network.getD "solana"))
      message := some (bf.message.getD "Payment required") }
  | none =>
    { paymentRequired := true
      amount := h "x-payment-amount"
      currency := some ((h "x-payment-currency").getD "USDC")
      recipient := h "x-payment-recipient"
      network := some ((h "x-payment-network").getD "solana")
      message := some "Payment required" }

/-- Header extraction at the top of `SimpleX402Client._handle_402_response`
(x402_example.py): plain `headers.get` for every field, with a `'USDC'`
default for the currency only. -/
structure X402PaymentFields where
  amount : Option String
  currency : String
  recipient : Option String
  network : Option String
  facilitator : Option String
deriving DecidableEq

/-- The header reads at the top of `SimpleX402Client._handle_402_response`. -/
def extract402Headers (h : String → Option String) : X402PaymentFields :=
  { amount := h "x-payment-amount"
    currency := (h "x-payment-currency").getD "USDC"
    recipient := h "x-payment-recipient"
    network := h "x-payment-network"
    facilitator := h "x-payment-facilitator" }

/-! ## `DataNexusClient.purchase_dataset` argument validation -/

/-- The JSON body the purchase request would carry. -/
structure PurchaseBody where
  paymentMethod : String
  paymentTxHash : Option String
  x402Token : Option String
deriving DecidableEq

/-- `purchase_dataset` up to the `_request` call: `.error` models the
`ValueError` raised before any HTTP request is issued, `.ok` carries the
request body that would be POSTed. -/
def purchaseDataset (method : String) (txHash x402tok : Option String) :
    Except String PurchaseBody :=
  if method = "solana" then
    if pyTruthy txHash then .ok ⟨method, txHash, none⟩
    else .error "payment_tx_hash is required for Solana payment"
  else if method = "x402" then
    if pyTruthy x402tok then .ok ⟨method, none, x402tok⟩
    else .error "x402_token is required for x402 payment"
  else .error "Invalid payment method. Use 'solana' or 'x402'"

/-! ## IEEE-754 binary64 model for the amount conversion

`_handle_402_response` computes `amount = float(amount_str)` and
`amount_lamports = int(amount * (10 ** 6))` (same pattern at
demo_x402_complete_flow.py line 224).  CPython `float` is an IEEE-754
binary64 with correctly rounded (round-to-nearest, ties-to-even) parsing
and multiplication, so both operations are the exact rational value rounded
to 53 significant bits.  The model below implements that rounding on exact
integer fractions; it covers the normal, non-overflowing range, which
contains every value these scripts produce (payment amounts and their 10^6
multiples). -/

/-- An exact (unnormalised) fraction `num / den`, `den` kept positive by
every operation below.  Fractions are used instead of `ℚ` so that every
operation is plain integer arithmetic. -/
structure Frac where
  num : ℤ
  den : ℤ
deriving DecidableEq

/-- The rational value of a fraction. -/
def Frac.val (a : Frac) : ℚ := (a.num : ℚ) / (a.den : ℚ)

/-- Fuel-driven floor of the base-2 logarithm: `natLog2F fuel n` is
`⌊log2 n⌋` for `1 ≤ n < 2 ^ fuel` (and the fuel used below covers every
number the embedding manipulates). -/
def natLog2F : Nat → Nat → Nat
  | 0, _ => 0
  | fuel + 1, n => if n ≤ 1 then 0 else natLog2F fuel (n / 2) + 1

/-- Whether `2 ^ e ≤ a` for a fraction `a` with positive denominator. -/
def pow2le (e : ℤ) (a : Frac) : Bool :=
  if 0 ≤ e then (2 ^ e.toNat) * a.den ≤ a.num
  else a.den ≤ 2 ^ (-e).toNat * a.num

/-- Floor of the base-2 logarithm of a positive fraction: the unique `e`
with `2 ^ e ≤ a.val < 2 ^ (e + 1)`. -/
def ilog2F (a : Frac) : ℤ :=
  let d : ℤ := (natLog2F 256 a.num.toNat : ℤ) - (natLog2F 256 a.den.toNat : ℤ)
  if pow2le d a then d else d - 1

/-- Multiply a fraction by `2 ^ e`. -/
def mulPow2 (a : Frac) (e : ℤ) : Frac :=
  if 0 ≤ e then ⟨a.num * 2 ^ e.toNat, a.den⟩ else ⟨a.num, a.den * 2 ^ (-e).toNat⟩

/-- Round a fraction with positive denominator to an integer, half to even. -/
def rheF (a : Frac) : ℤ :=
  let f := a.num.fdiv a.den
  let rn := a.num - f * a.den
  if 2 * rn < a.den then f
  else if a.den < 2 * rn then f + 1
  else if f % 2 = 0 then f else f + 1

/-- Round a positive fraction to the nearest binary64 value: 53 significant
bits, round to nearest, ties to even. -/
def roundPosF64 (a : Frac) : Frac :=
  let e : ℤ := ilog2F a - 52
  mulPow2 ⟨rheF (mulPow2 a (-e)), 1⟩ e

/-- Round a fraction to the nearest binary64 value (normal range; the
scripts never produce subnormal or overflowing magnitudes). -/
def roundF64 (a : Frac) : Frac :=
  if a.num = 0 then ⟨0, 1⟩
  else if a.num < 0 then
    let r := roundPosF64 ⟨-a.num, a.den⟩
    ⟨-r.num, r.den⟩
  else roundPosF64 a

/-- Binary64 multiplication: the exact product, rounded. -/
def fmul (x y : Frac) : Frac := roundF64 ⟨x.num * y.num, x.den * y.den⟩

/-- Python `int()` on a float value: truncation toward zero. -/
def pyInt (a : Frac) : ℤ :=
  if a.num < 0 then -((-a.num).fdiv a.den) else a.num.fdiv a.den

/-- The decimal-to-base-units conversion performed before `_transfer_usdc`:
`int(float(amount_str) * (10 ** 6))`, as a function of the exact decimal
value `a` carried by `amount_str`. -/
def toBaseUnits (a : Frac) : ℤ := pyInt (fmul (roundF64 a) ⟨1000000, 1⟩)

/-! ## `SimpleX402Client._handle_402_response` and the download/analyze flows

HTTP responses are supplied as oracles.  `RespJson` models what the code can
reach inside a parsed JSON body; `Resp.json = .error m` models
`response.json()` raising (JSON decode failure, or a top-level body that is
not a dict so that the first `.get` raises) with message `m`. -/

/-- View of a parsed JSON error body.  `errMessage` models evaluating
`error_data.get('error', {}).get('message', _)` without the default:
`.error m` when the `error` value is itself not a dict (the inner `.get`
raises), `.ok msg` otherwise with `msg = none` when the key chain is absent.
`errVal` models `error_data.get('error', _)` without the default (the
`analyze_dataset` error path), the value abstracted as a string. -/
structure RespJson where
  errMessage : Except String (Option String)
  errVal : Option String
deriving DecidableEq

/-- An HTTP response as the client observes it. -/
structure Resp where
  status : Nat
  headers : String → Option String
  contentLen : Nat
  ctJson : Bool
  json : Except String RespJson

/-- Result dict of `SimpleX402Client.download_dataset`; absent dict keys are
`none` fields.  `paymentInfo` carries the `(amount, currency, recipient)`
triple of the `auto_pay=False` branch. -/
structure DlResult where
  success : Bool
  error : Option String
  statusCode : Option Nat
  filePath : Option String
  fileSize : Option Nat
  paymentInfo : Option (Option String × Option String × Option String)
deriving DecidableEq

/-- Run of `_handle_402_response` past the header prints: returns the
payment token, the number of `_transfer_usdc` invocations (`0` or `1`), and
the base-unit amount passed to it.  The `try` block catches everything:
`float(None)` / `float(<garbage>)` and a failed transfer all yield `none`. -/
def handle402run (hasKeypair : Bool) (h : String → Option String)
    (parseFloat : String → Option Frac) (env : Nat → SubmitOutcome) :
    Option String × Nat × Option ℤ :=
  if hasKeypair = false then (none, 0, none)
  else
    match h "x-payment-amount" with
    | none => (none, 0, none)
    | some s =>
      match parseFloat s with
      | none => (none, 0, none)
      | some a =>
        let lam := toBaseUnits a
        match (transferUsdc env 3).result with
        | some (.ok sig) => (some sig, 1, some lam)
        | some (.error _) => (none, 1, some lam)
        | none => (none, 1, some lam)

/-- Observable outcome of a `download_dataset` run: the returned dict or the
uncaught exception, whether the payment executor ran, whether a second HTTP
request was issued and with which `x-payment-token` header, and whether the
body was written to disk. -/
structure DownloadOutcome where
  result : Except String DlResult
  transferCalls : Nat
  secondRequest : Bool
  proofHeader : Option String
  fileSaved : Bool

/-- Tail of `download_dataset` (from `if response.status_code == 200:` on),
applied to whichever response is current. -/
def finishDownload (resp : Resp) (outputPath : String)
    (inv : Nat) (secondReq : Bool) (proof : Option String) : DownloadOutcome :=
  if resp.status = 200 then
    { result := .ok ⟨true, none, none, some outputPath, some resp.contentLen, none⟩
      transferCalls := inv, secondRequest := secondReq
      proofHeader := proof, fileSaved := true }
  else
    { result :=
        if resp.ctJson then
          match resp.json with
          | .error m => .error m
          | .ok j =>
            match j.errMessage with
            | .error m => .error m
            | .ok msg =>
              .ok ⟨false, some (msg.getD "Download failed"), some resp.status,
                   none, none, none⟩
        else .ok ⟨false, some "Download failed", some resp.status, none, none, none⟩
      transferCalls := inv, secondRequest := secondReq
      proofHeader := proof, fileSaved := false }

/-- `SimpleX402Client.download_dataset`: first response `resp1`; `resp2` is
what the retried request (same URL, `x-payment-token` added) would return. -/
def downloadDataset (resp1 resp2 : Resp) (outputPath : String)
    (hasKeypair autoPay : Bool) (parseFloat : String → Option Frac)
    (env : Nat → SubmitOutcome) : DownloadOutcome :=
  if resp1.status = 402 then
    if autoPay = false then
      { result := .ok ⟨false, some "Payment required", none, none, none,
          some (resp1.headers "x-payment-amount",
                resp1.headers "x-payment-currency",
                resp1.headers "x-payment-recipient")⟩
        transferCalls := 0, secondRequest := false
        proofHeader := none, fileSaved := false }
    else
      match handle402run hasKeypair resp1.headers parseFloat env with
      | (none, inv, _) =>
        { result := .ok ⟨false,
            some "Payment failed - no Solana private key provided",
            none, none, none, none⟩
          transferCalls := inv, secondRequest := false
          proofHeader := none, fileSaved := false }
      | (some tok, inv, _) => finishDownload resp2 outputPath inv true (some tok)
  else finishDownload resp1 outputPath 0 false none

/-- Request body of `analyze_dataset` (sent identically on the retry). -/
structure AnalyzeBody where
  prompt : String
  model : String
  analysisType : String
  maxTokens : Nat
  temperature : Frac
deriving DecidableEq

/-- Return value of `analyze_dataset`: the server body passed through on
200, or the failure dict. -/
inductive AnalyzeRes where
  | serverBody
  | failure (error : Option String) (statusCode : Option Nat)
deriving DecidableEq

/-- Observable outcome of an `analyze_dataset` run; `secondBody` is the JSON
body sent with the retried request (`none` when no retry was issued). -/
structure AnalyzeOutcome where
  result : Except String AnalyzeRes
  transferCalls : Nat
  secondRequest : Bool
  proofHeader : Option String
  secondBody : Option AnalyzeBody

/-- Tail of `analyze_dataset` (from `if response.status_code == 200:` on). -/
def finishAnalyze (resp : Resp) (inv : Nat) (secondReq : Bool)
    (proof : Option String) (sndBody : Option AnalyzeBody) : AnalyzeOutcome :=
  if resp.status = 200 then
    { result :=
        match resp.json with
        | .error m => .error m
        | .ok _ => .ok .serverBody
      transferCalls := inv, secondRequest := secondReq
      proofHeader := proof, secondBody := sndBody }
  else
    { result :=
        if resp.ctJson then
          match resp.json with
          | .error m => .error m
          | .ok j => .ok (.failure (some (j.errVal.getD "Analysis failed"))
              (some resp.status))
        else .ok (.failure (some "Analysis failed") (some resp.status))
      transferCalls := inv, secondRequest := secondReq
      proofHeader := proof, secondBody := sndBody }

/-- `SimpleX402Client.analyze_dataset`: POSTs `body`; on 402 pays and
re-POSTs the identical `body` with the `x-payment-token` header. -/
def analyzeDataset (body : AnalyzeBody) (resp1 resp2 : Resp)
    (hasKeypair : Bool) (parseFloat : String → Option Frac)
    (env : Nat → SubmitOutcome) : AnalyzeOutcome :=
  if resp1.status = 402 then
    match handle402run hasKeypair resp1.headers parseFloat env with
    | (none, inv, _) =>
      { result := .ok (.failure
          (some "Payment failed - no Solana private key provided") none)
        transferCalls := inv, secondRequest := false
        proofHeader := none, secondBody := none }
    | (some tok, inv, _) => finishAnalyze resp2 inv true (some tok) (some body)
  else finishAnalyze resp1 0 false none none

/-! ## Concrete fixtures used to instantiate the theorems below -/

/-- Fixture: a 402 response with a parseable amount header and a well-formed
(but message-less) JSON body. -/
def resp402Ex : Resp :=
  ⟨402, fun k => if k = "x-payment-amount" then some "0.10" else none, 0, true,
   .ok ⟨.ok none, none⟩⟩

/-- Fixture: a 402 response whose content type claims JSON but whose body
does not parse. -/
def respMalformedEx : Resp :=
  ⟨402, fun _ => none, 0, true, .error "Expecting value: line 1 column 1 (char 0)"⟩

/-- Fixture: a 402 response with a well-formed JSON error body. -/
def respOkJsonEx : Resp :=
  ⟨402, fun _ => none, 0, true,
   .ok ⟨.ok (some "Payment required"), some "PAYMENT_REQUIRED"⟩⟩

/-- Fixture: a plain 200 response carrying 1234 bytes. -/
def resp200Ex : Resp := ⟨200, fun _ => none, 1234, false, .ok ⟨.ok none, none⟩⟩

/-- Fixture: a float-parse oracle recognising the amount string of
`resp402Ex`. -/
def parseFloatEx : String → Option Frac :=
  fun s => if s = "0.10" then some ⟨1, 10⟩ else none

/-- Fixture: an RPC environment whose first submission succeeds. -/
def envOkEx : Nat → SubmitOutcome := fun _ => .success "5TxSigDemo" true

/-- Fixture: an analysis request body. -/
def abodyEx : AnalyzeBody := ⟨"Summarize", "gpt-4", "general", 2000, ⟨7, 10⟩⟩

end DataNexus

namespace DataNexus

/-! ## Supporting lemmas -/

/-- Correctness of the fuel-driven base-2 logarithm. -/
theorem natLog2F_spec :
    ∀ (fuel n : ℕ), 1 ≤ n → n < 2 ^ fuel →
      2 ^ natLog2F fuel n ≤ n ∧ n < 2 ^ (natLog2F fuel n + 1) := by
  intro fuel
  induction fuel with
  | zero =>
    intro n h1 h2
    simp at h2
    omega
  | succ f ih =>
    intro n h1 h2
    by_cases hn : n ≤ 1
    · have hn1 : n = 1 := by omega
      subst hn1
      constructor <;> simp [natLog2F]
    · have hdiv : n / 2 < 2 ^ f := by
        rw [Nat.div_lt_iff_lt_mul (by norm_num : 0 < 2)]
        calc n < 2 ^ (f + 1) := h2
          _ = 2 ^ f * 2 := by rw [pow_succ]
      have h1' : 1 ≤ n / 2 := by omega
      obtain ⟨la, lb⟩ := ih (n / 2) h1' hdiv
      have hgo : natLog2F (f + 1) n = natLog2F f (n / 2) + 1 := by
        simp [natLog2F, hn]
      rw [hgo]
      constructor
      · rw [pow_succ]
        have h2d : (n / 2) * 2 ≤ n := by omega
        have : 2 ^ natLog2F f (n / 2) * 2 ≤ (n / 2) * 2 := by omega
        omega
      · rw [pow_succ]
        rw [← Nat.div_lt_iff_lt_mul (by norm_num : 0 < 2)]
        exact lb

/-- Unfolding of `pow2le` for a non-negative exponent. -/
theorem pow2le_true_iff_of_nonneg (e : ℤ) (b : Frac) (h0 : 0 ≤ e) :
    pow2le e b = true ↔ 2 ^ e.toNat * b.den ≤ b.num := by
  simp [pow2le, h0]

/-- Unfolding of `pow2le` for a negative exponent. -/
theorem pow2le_true_iff_of_neg (e : ℤ) (b : Frac) (h0 : ¬ 0 ≤ e) :
    pow2le e b = true ↔ b.den ≤ 2 ^ (-e).toNat * b.num := by
  simp [pow2le, h0]

set_option maxRecDepth 8000

/-- Correctness of `ilog2F` on positive fractions of bounded size:
`2 ^ ilog2F b ≤ b.val < 2 ^ (ilog2F b + 1)`, phrased through `pow2le`. -/
theorem ilog2F_spec (b : Frac) (hn : 0 < b.num) (hd : 0 < b.den)
    (hnB : b.num < 2 ^ 256) (hdB : b.den < 2 ^ 256) :
    pow2le (ilog2F b) b = true ∧ pow2le (ilog2F b + 1) b = false := by
  have hA : ((b.num.toNat : ℤ)) = b.num := Int.toNat_of_nonneg hn.le
  have hC : ((b.den.toNat : ℤ)) = b.den := Int.toNat_of_nonneg hd.le
  have hA1 : 1 ≤ b.num.toNat := by omega
  have hC1 : 1 ≤ b.den.toNat := by omega
  have hcast : ((2 : ℤ) ^ 256) = ((2 ^ 256 : ℕ) : ℤ) := by norm_cast
  have hAB : b.num.toNat < 2 ^ 256 := by omega
  have hCB : b.den.toNat < 2 ^ 256 := by omega
  obtain ⟨la1, la2⟩ := natLog2F_spec 256 b.num.toNat hA1 hAB
  obtain ⟨lc1, lc2⟩ := natLog2F_spec 256 b.den.toNat hC1 hCB
  generalize hLA : natLog2F 256 b.num.toNat = LA at la1 la2
  generalize hLC : natLog2F 256 b.den.toNat = LC at lc1 lc2
  set d : ℤ := (LA : ℤ) - (LC : ℤ) with hdd
  have f1 : (2 : ℤ) ^ LA ≤ b.num := by
    calc (2 : ℤ) ^ LA = ((2 ^ LA : ℕ) : ℤ) := by norm_cast
      _ ≤ (b.num.toNat : ℤ) := by exact_mod_cast la1
      _ = b.num := hA
  have f2 : b.num < (2 : ℤ) ^ (LA + 1) := by
    calc b.num = (b.num.toNat : ℤ) := hA.symm
      _ < ((2 ^ (LA + 1) : ℕ) : ℤ) := by exact_mod_cast la2
      _ = (2 : ℤ) ^ (LA + 1) := by norm_cast
  have f3 : (2 : ℤ) ^ LC ≤ b.den := by
    calc (2 : ℤ) ^ LC = ((2 ^ LC : ℕ) : ℤ) := by norm_cast
      _ ≤ (b.den.toNat : ℤ) := by exact_mod_cast lc1
      _ = b.den := hC
  have f4 : b.den < (2 : ℤ) ^ (LC + 1) := by
    calc b.den = (b.den.toNat : ℤ) := hC.symm
      _ < ((2 ^ (LC + 1) : ℕ) : ℤ) := by exact_mod_cast lc2
      _ = (2 : ℤ) ^ (LC + 1) := by norm_cast
  have hU : pow2le (d + 1) b = false := by
    rw [← Bool.not_eq_true]
    by_cases hs : 0 ≤ d + 1
    · rw [pow2le_true_iff_of_nonneg _ _ hs]
      have hexp : (d + 1).toNat + LC = LA + 1 := by omega
      have hlt : b.num < 2 ^ (d + 1).toNat * b.den := by
        calc b.num < (2 : ℤ) ^ (LA + 1) := f2
          _ = (2 : ℤ) ^ ((d + 1).toNat + LC) := by rw [hexp]
          _ = 2 ^ (d + 1).toNat * 2 ^ LC := by ring
          _ ≤ 2 ^ (d + 1).toNat * b.den := by
              have h2p : (0 : ℤ) < 2 ^ (d + 1).toNat := by positivity
              exact mul_le_mul_of_nonneg_left f3 h2p.le
      exact not_le.mpr hlt
    · rw [pow2le_true_iff_of_neg _ _ hs]
      have hexp : (-(d + 1)).toNat + (LA + 1) = LC := by omega
      have hlt : 2 ^ (-(d + 1)).toNat * b.num < b.den := by
        calc 2 ^ (-(d + 1)).toNat * b.num
            < 2 ^ (-(d + 1)).toNat * (2 : ℤ) ^ (LA + 1) := by
              have h2p : (0 : ℤ) < 2 ^ (-(d + 1)).toNat := by positivity
              exact (mul_lt_mul_left h2p).mpr f2
          _ = (2 : ℤ) ^ ((-(d + 1)).toNat + (LA + 1)) := by ring
          _ = (2 : ℤ) ^ LC := by rw [hexp]
          _ ≤ b.den := f3
      exact not_le.mpr hlt
  have hL : pow2le (d - 1) b = true := by
    by_cases hs : 0 ≤ d - 1
    · rw [pow2le_true_iff_of_nonneg _ _ hs]
      have hexp : (d - 1).toNat + (LC + 1) = LA := by omega
      have hlt : 2 ^ (d - 1).toNat * b.den < (2 : ℤ) ^ LA := by
        calc 2 ^ (d - 1).toNat * b.den
            < 2 ^ (d - 1).toNat * (2 : ℤ) ^ (LC + 1) := by
              have h2p : (0 : ℤ) < 2 ^ (d - 1).toNat := by positivity
              exact (mul_lt_mul_left h2p).mpr f4
          _ = (2 : ℤ) ^ ((d - 1).toNat + (LC + 1)) := by ring
          _ = (2 : ℤ) ^ LA := by rw [hexp]
      exact le_trans hlt.le f1
    · rw [pow2le_true_iff_of_neg _ _ hs]
      have hexp : LC + 1 = (-(d - 1)).toNat + LA := by omega
      have hlt : b.den < 2 ^ (-(d - 1)).toNat * (2 : ℤ) ^ LA := by
        calc b.den < (2 : ℤ) ^ (LC + 1) := f4
          _ = (2 : ℤ) ^ ((-(d - 1)).toNat + LA) := by rw [hexp]
          _ = 2 ^ (-(d - 1)).toNat * (2 : ℤ) ^ LA := by ring
      have h2p : (0 : ℤ) < 2 ^ (-(d - 1)).toNat := by positivity
      have hstep := mul_le_mul_of_nonneg_left f1 h2p.le
      exact le_trans hlt.le hstep
  have hil : ilog2F b = if pow2le d b then d else d - 1 := by
    simp only [ilog2F, hLA, hLC, ← hdd]
  by_cases hpd : pow2le d b
  · rw [hil, if_pos hpd]
    exact ⟨hpd, hU⟩
  · rw [hil, if_neg hpd]
    have hsum : d - 1 + 1 = d := by ring
    rw [hsum]
    refine ⟨hL, ?_⟩
    simpa using hpd

/-- Rounding to an integer leaves an integer-valued fraction unchanged. -/
theorem rheF_intval (c : Frac) (M : ℤ) (hd : 0 < c.den)
    (hv : c.num = M * c.den) : rheF c = M := by
  have hf : c.num.fdiv c.den = M := by
    rw [hv]
    exact Int.mul_fdiv_cancel M (ne_of_gt hd)
  have h0 : c.num - M * c.den = 0 := by
    rw [hv]
    ring
  simp only [rheF, hf, h0]
  simp [hd]

/-- The denominator produced by `roundF64` is always positive. -/
theorem roundF64_den_pos (a : Frac) : 0 < (roundF64 a).den := by
  unfold roundF64 roundPosF64 mulPow2
  split
  · norm_num
  · split
    · simp only
      split <;> positivity
    · simp only
      split <;> positivity

/-- A fraction whose value is an integer `N` with `1 ≤ N < 2 ^ 53` is
representable in binary64, so `roundPosF64` leaves its value unchanged. -/
theorem roundPosF64_intval (b : Frac) (N : ℕ) (hd : 0 < b.den)
    (hv : b.num = (N : ℤ) * b.den) (h1 : 1 ≤ N) (h53 : (N : ℤ) < 2 ^ 53)
    (hnB : b.num < 2 ^ 256) (hdB : b.den < 2 ^ 256) :
    (roundPosF64 b).num = (N : ℤ) * (roundPosF64 b).den := by
  have hn : 0 < b.num := by
    rw [hv]
    have : (0 : ℤ) < (N : ℤ) := by exact_mod_cast h1
    positivity
  obtain ⟨hp1, hp2⟩ := ilog2F_spec b hn hd hnB hdB
  set k := ilog2F b with hk
  have hk52 : k ≤ 52 := by
    by_contra hgt
    push_neg at hgt
    have h0k : (0 : ℤ) ≤ k := by omega
    rw [pow2le_true_iff_of_nonneg _ _ h0k] at hp1
    rw [hv] at hp1
    have hle : (2 : ℤ) ^ k.toNat ≤ (N : ℤ) :=
      le_of_mul_le_mul_right (by linarith [hp1]) hd
    have h53k : (53 : ℕ) ≤ k.toNat := by omega
    have : (2 : ℤ) ^ 53 ≤ 2 ^ k.toNat :=
      pow_le_pow_right₀ (by norm_num) h53k
    have hb : (2 : ℤ) ^ 53 ≤ (N : ℤ) := le_trans this hle
    linarith
  have hscn : 0 ≤ -(k - 52) := by omega
  have hsc : mulPow2 b (-(k - 52)) = ⟨b.num * 2 ^ (-(k - 52)).toNat, b.den⟩ := by
    unfold mulPow2
    rw [if_pos hscn]
  have hm : rheF (mulPow2 b (-(k - 52))) =
      (N : ℤ) * 2 ^ (-(k - 52)).toNat := by
    rw [hsc]
    exact rheF_intval ⟨b.num * 2 ^ (-(k - 52)).toNat, b.den⟩
      ((N : ℤ) * 2 ^ (-(k - 52)).toNat) hd (by rw [hv]; ring)
  show (mulPow2 ⟨rheF (mulPow2 b (-(k - 52))), 1⟩ (k - 52)).num =
    (N : ℤ) * (mulPow2 ⟨rheF (mulPow2 b (-(k - 52))), 1⟩ (k - 52)).den
  rw [hm]
  by_cases hke : 0 ≤ k - 52
  · have hk52' : k - 52 = 0 := by omega
    rw [hk52']
    show (N : ℤ) * 2 ^ (-(0 : ℤ)).toNat * 2 ^ (0 : ℤ).toNat =
      (N : ℤ) * (1 * 1)
    norm_num
  · unfold mulPow2
    rw [if_neg hke]
    show (N : ℤ) * 2 ^ (-(k - 52)).toNat =
      (N : ℤ) * (1 * 2 ^ (-(k - 52)).toNat)
    ring

/-- Binary64 rounding leaves an integer value `N < 2 ^ 53` unchanged. -/
theorem roundF64_intval (b : Frac) (N : ℕ) (hd : 0 < b.den)
    (hv : b.num = (N : ℤ) * b.den) (h1 : 1 ≤ N) (h53 : (N : ℤ) < 2 ^ 53)
    (hnB : b.num < 2 ^ 256) (hdB : b.den < 2 ^ 256) :
    (roundF64 b).num = (N : ℤ) * (roundF64 b).den := by
  have hn : 0 < b.num := by
    rw [hv]
    have : (0 : ℤ) < (N : ℤ) := by exact_mod_cast h1
    positivity
  have h1' : ¬ b.num = 0 := by omega
  have h2' : ¬ b.num < 0 := by omega
  unfold roundF64
  rw [if_neg h1', if_neg h2']
  exact roundPosF64_intval b N hd hv h1 h53 hnB hdB

/-- Python `int()` of an integer-valued fraction. -/
theorem pyInt_intval (c : Frac) (N : ℕ) (hd : 0 < c.den)
    (hv : c.num = (N : ℤ) * c.den) : pyInt c = N := by
  have hnn : ¬ c.num < 0 := by
    rw [hv]
    have h0 : (0 : ℤ) ≤ (N : ℤ) := by exact_mod_cast Nat.zero_le N
    have := mul_nonneg h0 hd.le
    omega
  unfold pyInt
  rw [if_neg hnn, hv]
  exact Int.mul_fdiv_cancel _ (ne_of_gt hd)

/-- The backup loop adopts the first responding backup other than the
primary. -/
theorem tryBackups_eq (env : String → Bool) (primary : String) :
    ∀ l : List String,
      tryBackups env primary l =
        match (l.filter (fun u => u ≠ primary)).find? env with
        | some u => .ok u
        | none => .error "Failed to connect to any Solana RPC node" := by
  intro l
  induction l with
  | nil => rfl
  | cons u rest ih =>
    by_cases hu : u = primary
    · simp [tryBackups, hu, ih]
    · by_cases he : env u
      · simp [tryBackups, hu, he, List.find?]
      · simp [tryBackups, hu, he, List.find?, ih]

/-- `_handle_402_response` invokes the payment executor at most once. -/
theorem handle402run_calls_le_one (hasKeypair : Bool)
    (h : String → Option String) (parseFloat : String → Option Frac)
    (env : Nat → SubmitOutcome) :
    (handle402run hasKeypair h parseFloat env).2.1 ≤ 1 := by
  unfold handle402run
  rcases hasKeypair <;> rcases h "x-payment-amount" with _ | s <;> simp
  rcases parseFloat s with _ | a <;> simp
  rcases (transferUsdc env 3).result with _ | r
  · simp
  · rcases r <;> simp

end DataNexus

namespace DataNexus

/-! ## Claim C1 -/

/-- Claim C1, counterexample: with every submission attempt failing, the
retry loop of `_transfer_usdc` sleeps only twice (2 s then 4 s): the total
worst-case backoff sleep is 6 seconds, not the 2+4+6 = 12 seconds the claim
states (no sleep follows the third, final attempt — it raises instead). -/
theorem claim_C1_counterexample :
    (transferUsdc (allFailEnv "RPC node unavailable") 3).sleeps = [2, 4] ∧
    (transferUsdc (allFailEnv "RPC node unavailable") 3).sleeps.sum = 6 ∧
    (transferUsdc (allFailEnv "RPC node unavailable") 3).sleeps.sum ≠ 12 := by
  decide

/-- Claim C1, amended: `_transfer_usdc` makes at most 3 submission attempts
and sleeps (attempt index × 2) seconds after each failed non-final attempt,
so the total worst-case backoff sleep before giving up is 2+4 = 6 seconds
(not 12); on final failure it raises an error carrying the last underlying
error message. -/
theorem claim_C1 :
    ∀ env : Nat → SubmitOutcome,
      (transferUsdc env 3).attemptsUsed ≤ 3 ∧
      (transferUsdc env 3).sleeps.sum ≤ 6 ∧
      (∀ m0 m1 m2, env 0 = .fail m0 → env 1 = .fail m1 → env 2 = .fail m2 →
        (transferUsdc env 3).result =
          some (.error ("Failed to send transaction after 3 attempts: " ++ m2)) ∧
        (transferUsdc env 3).sleeps = [2, 4]) := by
  intro env
  have hr : List.range 3 = [0, 1, 2] := rfl
  have hs : ("Failed to send transaction after " ++ toString (3 : Nat) ++
      " attempts: ") = "Failed to send transaction after 3 attempts: " := by
    decide
  rcases h0 : env 0 with m0' | ⟨s0, c0⟩ <;>
    rcases h1 : env 1 with m1' | ⟨s1, c1⟩ <;>
      rcases h2 : env 2 with m2' | ⟨s2, c2⟩ <;>
        simp [transferUsdc, hr, transferGo, h0, h1, h2, hs]

/-- Claim C1, witness: the amended theorem applied to the all-failing
environment. -/
theorem claim_C1_witness :
    (transferUsdc (allFailEnv "boom") 3).result =
      some (.error ("Failed to send transaction after 3 attempts: " ++ "boom")) ∧
    (transferUsdc (allFailEnv "boom") 3).sleeps = [2, 4] :=
  (claim_C1 (allFailEnv "boom")).2.2 "boom" "boom" "boom" rfl rfl rfl

/-! ## Claim C2 -/

/-- Claim C2, counterexample: the conversion `int(float(s) * 10 ** 6)` is
not exact for every amount with at most 6 fractional digits — for 2.01 it
yields 2009999 instead of 2010000 — and beyond 6 digits it does not always
truncate toward zero — 0.99999999999999999 parses to the double 1.0 and
yields 1000000 instead of the truncation 999999. -/
theorem claim_C2_counterexample :
    toBaseUnits ⟨201, 100⟩ = 2009999 ∧
    toBaseUnits ⟨201, 100⟩ ≠ 2010000 ∧
    toBaseUnits ⟨99999999999999999, 100000000000000000⟩ = 1000000 ∧
    ¬ toBaseUnits ⟨99999999999999999, 100000000000000000⟩ ≤ 999999 := by
  decide

/-- Claim C2, amended: the conversion computes
`int(fl(fl(amount) * 10 ^ 6))` in binary64 arithmetic.  It is exact whenever
the parsed double equals the amount exactly and `amount * 10 ^ 6` is an
integer below `2 ^ 53`; for other amounts the result is the truncation of
the rounded double product, which can differ from `amount * 10 ^ 6` in
either direction: 0.10 still gives 100000 (the spec example), but 2.01
gives 2009999, and the 17-digit 0.99999999999999999 gives 1000000. -/
theorem claim_C2 :
    (∀ (a : Frac) (N : ℕ),
      0 < a.den →
      (roundF64 a).num * a.den = a.num * (roundF64 a).den →
      a.num * 1000000 = (N : ℤ) * a.den →
      (N : ℤ) < 2 ^ 53 →
      (roundF64 a).num * 1000000 < 2 ^ 256 →
      (roundF64 a).den < 2 ^ 256 →
      toBaseUnits a = (N : ℤ)) ∧
    toBaseUnits ⟨1, 10⟩ = 100000 ∧
    toBaseUnits ⟨201, 100⟩ = 2009999 ∧
    toBaseUnits ⟨99999999999999999, 100000000000000000⟩ = 1000000 := by
  refine ⟨?_, by decide, by decide, by decide⟩
  intro a N hden hexact hprod h53 hB1 hB2
  by_cases hN0 : N = 0
  · subst hN0
    have ha0 : a.num = 0 := by
      have hz : a.num * 1000000 = 0 := by simpa using hprod
      omega
    have hra : roundF64 a = ⟨0, 1⟩ := by
      unfold roundF64
      rw [if_pos ha0]
    have hstep : toBaseUnits a = pyInt (roundF64 ⟨0 * 1000000, 1 * 1⟩) := by
      unfold toBaseUnits fmul
      rw [hra]
    rw [hstep]
    decide
  · have hN1 : 1 ≤ N := Nat.one_le_iff_ne_zero.mpr hN0
    have hdra : 0 < (roundF64 a).den := roundF64_den_pos a
    have h1 : (roundF64 a).num * 1000000 * a.den =
        a.num * 1000000 * (roundF64 a).den := by
      calc (roundF64 a).num * 1000000 * a.den
          = (roundF64 a).num * a.den * 1000000 := by ring
        _ = a.num * (roundF64 a).den * 1000000 := by rw [hexact]
        _ = a.num * 1000000 * (roundF64 a).den := by ring
    have h2 : a.num * 1000000 * (roundF64 a).den =
        ((N : ℤ) * (roundF64 a).den) * a.den := by
      rw [hprod]
      ring
    have hfin : (roundF64 a).num * 1000000 = (N : ℤ) * (roundF64 a).den :=
      mul_right_cancel₀ (ne_of_gt hden) (by rw [h1, h2])
    have hvp : (Frac.mk ((roundF64 a).num * 1000000) ((roundF64 a).den * 1)).num =
        (N : ℤ) * (Frac.mk ((roundF64 a).num * 1000000)
          ((roundF64 a).den * 1)).den := by
      show (roundF64 a).num * 1000000 = (N : ℤ) * ((roundF64 a).den * 1)
      rw [hfin]
      ring
    have hdp : 0 < (Frac.mk ((roundF64 a).num * 1000000)
        ((roundF64 a).den * 1)).den := by
      show 0 < (roundF64 a).den * 1
      simpa using hdra
    have hBn : (Frac.mk ((roundF64 a).num * 1000000)
        ((roundF64 a).den * 1)).num < 2 ^ 256 := hB1
    have hBd : (Frac.mk ((roundF64 a).num * 1000000)
        ((roundF64 a).den * 1)).den < 2 ^ 256 := by
      show (roundF64 a).den * 1 < 2 ^ 256
      simpa using hB2
    have hround := roundF64_intval
      ⟨(roundF64 a).num * 1000000, (roundF64 a).den * 1⟩ N hdp hvp hN1 h53 hBn hBd
    have hfinal := pyInt_intval
      (roundF64 ⟨(roundF64 a).num * 1000000, (roundF64 a).den * 1⟩) N
      (roundF64_den_pos _) hround
    unfold toBaseUnits fmul
    exact hfinal

set_option maxRecDepth 100000 in
/-- Claim C2, witness: the amended theorem applied to the amount 0.25, whose
double is exact and whose product 250000 is an integer below `2 ^ 53`. -/
theorem claim_C2_witness :
    toBaseUnits ⟨25, 100⟩ = 250000 := by
  have h := (claim_C2).1 ⟨25, 100⟩ 250000 (by decide) (by decide) (by decide)
    (by decide) (by decide) (by decide)
  simpa using h

/-! ## Claim C3 -/

/-- Claim C3: whenever some attempt of `_transfer_usdc` submits successfully
(after only failed attempts before it), the function returns exactly the
submission signature — whether or not the confirmation poll raised
(`confirmOk` is arbitrary); a confirmation failure never invalidates or
withholds the signature. -/
theorem claim_C3 :
    ∀ (env : Nat → SubmitOutcome) (k : Nat) (sig : String) (confirmOk : Bool),
      k < 3 → (∀ j, j < k → (env j).isFail = true) →
      env k = .success sig confirmOk →
      (transferUsdc env 3).result = some (.ok sig) := by
  intro env k sig c hk hfail hks
  have hr : List.range 3 = [0, 1, 2] := rfl
  interval_cases k
  · simp [transferUsdc, hr, transferGo, hks]
  · have h0 := hfail 0 (by norm_num)
    rcases e0 : env 0 with m | ⟨s, cc⟩
    · simp [transferUsdc, hr, transferGo, e0, hks]
    · rw [e0] at h0; simp [SubmitOutcome.isFail] at h0
  · have h0 := hfail 0 (by norm_num); have h1 := hfail 1 (by norm_num)
    rcases e0 : env 0 with m | ⟨s, cc⟩
    · rcases e1 : env 1 with m' | ⟨s', cc'⟩
      · simp [transferUsdc, hr, transferGo, e0, e1, hks]
      · rw [e1] at h1; simp [SubmitOutcome.isFail] at h1
    · rw [e0] at h0; simp [SubmitOutcome.isFail] at h0

/-- Claim C3, witness: two failed submissions, then a success whose
confirmation poll raises (`confirmOk = false`); the signature is returned. -/
theorem claim_C3_witness :
    (transferUsdc
      (fun j => if j < 2 then .fail "blockhash not found"
                else .success "5SigExample" false) 3).result =
      some (.ok "5SigExample") :=
  claim_C3 _ 2 "5SigExample" false (by decide)
    (by intro j hj; interval_cases j <;> rfl) rfl

/-! ## Claim C4 -/

/-- Claim C4, counterexample: when the `x-payment-amount` header is present
with an empty value, the detector still falls back to the body price (Python
`or` treats the empty string as falsy), so extraction does not follow the
header whenever it is present. -/
theorem claim_C4_counterexample :
    (fun k => if k = "x-payment-amount" then some "" else none)
        "x-payment-amount" = some "" ∧
    (parse402 (fun k => if k = "x-payment-amount" then some "" else none)
        (some ⟨some "0.5", none, none, none⟩)).amount = some "0.5" ∧
    (parse402 (fun k => if k = "x-payment-amount" then some "" else none)
        (some ⟨some "0.5", none, none, none⟩)).amount ≠ some "" := by
  decide

/-- Claim C4, amended: for every 402 response the detector extracts amount,
currency and network from the `x-payment-*` headers whenever those headers
are present with a NON-EMPTY value, and falls back to the JSON error-body
fields exactly when the corresponding header is absent or empty; the
recipient is always taken from the header (it has no body fallback). -/
theorem claim_C4 :
    ∀ (h : String → Option String) (body : Option ErrorDetails)
      (bf : ErrorDetails) (s : String),
      (s ≠ "" → h "x-payment-amount" = some s →
        (parse402 h body).amount = some s) ∧
      (s ≠ "" → h "x-payment-currency" = some s →
        (parse402 h body).currency = some s) ∧
      (s ≠ "" → h "x-payment-network" = some s →
        (parse402 h body).network = some s) ∧
      ((parse402 h body).recipient = h "x-payment-recipient") ∧
      (pyTruthy (h "x-payment-amount") = false →
        (parse402 h (some bf)).amount = bf.price) ∧
      (h "x-payment-amount" = none → (parse402 h none).amount = none) := by
  intro h body bf s
  refine ⟨?_, ?_, ?_, ?_, ?_, ?_⟩
  · intro hs hh
    cases body <;> simp [parse402, pyOr, pyTruthy, hh, hs]
  · intro hs hh
    cases body <;> simp [parse402, pyOr, pyTruthy, hh, hs]
  · intro hs hh
    cases body <;> simp [parse402, pyOr, pyTruthy, hh, hs]
  · cases body <;> simp [parse402]
  · intro hf
    simp [parse402, pyOr, hf]
  · intro hn
    simp [parse402, hn]

/-- Claim C4, witness: a non-empty amount header wins over the body price. -/
theorem claim_C4_witness :
    (parse402 (fun k => if k = "x-payment-amount" then some "1.5" else none)
        (some ⟨some "9.9", none, none, none⟩)).amount = some "1.5" :=
  (claim_C4 (fun k => if k = "x-payment-amount" then some "1.5" else none)
      (some ⟨some "9.9", none, none, none⟩) ⟨some "9.9", none, none, none⟩
      "1.5").1 (by decide) rfl

/-! ## Claim C5 -/

/-- Claim C5: with no signing key configured, a 402 download (with auto-pay
on) returns the structured failure dict without raising, issues no second
HTTP request, and never invokes the payment executor. -/
theorem claim_C5 :
    ∀ (resp1 resp2 : Resp) (path : String) (parseFloat : String → Option Frac)
      (env : Nat → SubmitOutcome),
      resp1.status = 402 →
      downloadDataset resp1 resp2 path false true parseFloat env =
        ⟨.ok ⟨false, some "Payment failed - no Solana private key provided",
              none, none, none, none⟩, 0, false, none, false⟩ := by
  intro r1 r2 path pf env h
  simp [downloadDataset, h, handle402run]

/-- Claim C5, witness: the theorem applied to the concrete 402 fixture. -/
theorem claim_C5_witness :
    downloadDataset resp402Ex resp200Ex "out.csv" false true parseFloatEx
        (allFailEnv "e") =
      ⟨.ok ⟨false, some "Payment failed - no Solana private key provided",
            none, none, none, none⟩, 0, false, none, false⟩ :=
  claim_C5 resp402Ex resp200Ex "out.csv" parseFloatEx (allFailEnv "e") rfl

/-! ## Claim C6 -/

/-- Claim C6, counterexample: after a successful payment, a second 402
response whose content type is JSON but whose body does not parse makes
`download_dataset` raise the JSON decode error instead of returning a
failure result carrying the status code. -/
theorem claim_C6_counterexample :
    (downloadDataset resp402Ex respMalformedEx "out.csv" true true parseFloatEx
        envOkEx).secondRequest = true ∧
    (downloadDataset resp402Ex respMalformedEx "out.csv" true true parseFloatEx
        envOkEx).result = .error "Expecting value: line 1 column 1 (char 0)" := by
  decide

/-- Claim C6, amended: after a successful payment the retry step reissues
the identical request with the `x-payment-token` header added (for analyze,
with the identical JSON body), and a second 402 is terminal: the payment
executor is not invoked again (at most one invocation in the whole run) and
no further request is issued; the client returns a failure result carrying
status code 402 whenever the 402 body is well formed or its content type is
not JSON, while a malformed JSON body makes the decode error propagate. -/
theorem claim_C6 :
    ∀ (resp1 resp2 : Resp) (path : String) (hasKeypair : Bool)
      (parseFloat : String → Option Frac) (env : Nat → SubmitOutcome)
      (tok : String) (inv : Nat) (lam : Option ℤ) (abody : AnalyzeBody),
      resp1.status = 402 →
      handle402run hasKeypair resp1.headers parseFloat env =
        (some tok, inv, lam) →
      resp2.status = 402 →
      ((downloadDataset resp1 resp2 path hasKeypair true parseFloat
          env).secondRequest = true ∧
       (downloadDataset resp1 resp2 path hasKeypair true parseFloat
          env).proofHeader = some tok ∧
       (downloadDataset resp1 resp2 path hasKeypair true parseFloat
          env).transferCalls = inv ∧ inv ≤ 1 ∧
       (resp2.ctJson = false →
         (downloadDataset resp1 resp2 path hasKeypair true parseFloat
            env).result =
           .ok ⟨false, some "Download failed", some 402, none, none, none⟩) ∧
       (∀ j msg, resp2.ctJson = true → resp2.json = .ok j →
         j.errMessage = .ok msg →
         (downloadDataset resp1 resp2 path hasKeypair true parseFloat
            env).result =
           .ok ⟨false, some (msg.getD "Download failed"), some 402,
                none, none, none⟩) ∧
       (∀ m, resp2.ctJson = true → resp2.json = .error m →
         (downloadDataset resp1 resp2 path hasKeypair true parseFloat
            env).result = .error m)) ∧
      ((analyzeDataset abody resp1 resp2 hasKeypair parseFloat
          env).secondRequest = true ∧
       (analyzeDataset abody resp1 resp2 hasKeypair parseFloat
          env).proofHeader = some tok ∧
       (analyzeDataset abody resp1 resp2 hasKeypair parseFloat
          env).secondBody = some abody ∧
       (analyzeDataset abody resp1 resp2 hasKeypair parseFloat
          env).transferCalls = inv ∧
       (resp2.ctJson = false →
         (analyzeDataset abody resp1 resp2 hasKeypair parseFloat env).result =
           .ok (.failure (some "Analysis failed") (some 402))) ∧
       (∀ j, resp2.ctJson = true → resp2.json = .ok j →
         (analyzeDataset abody resp1 resp2 hasKeypair parseFloat env).result =
           .ok (.failure (some (j.errVal.getD "Analysis failed")) (some 402))) ∧
       (∀ m, resp2.ctJson = true → resp2.json = .error m →
         (analyzeDataset abody resp1 resp2 hasKeypair parseFloat env).result =
           .error m)) := by
  intro r1 r2 path hk pf env tok inv lam ab h1 hrun h2
  have hinv : inv ≤ 1 := by
    have hle := handle402run_calls_le_one hk r1.headers pf env
    rw [hrun] at hle
    exact hle
  have hd : downloadDataset r1 r2 path hk true pf env =
      finishDownload r2 path inv true (some tok) := by
    simp [downloadDataset, h1, hrun]
  have ha : analyzeDataset ab r1 r2 hk pf env =
      finishAnalyze r2 inv true (some tok) (some ab) := by
    simp [analyzeDataset, h1, hrun]
  refine ⟨⟨?_, ?_, ?_, hinv, ?_, ?_, ?_⟩, ?_, ?_, ?_, ?_, ?_, ?_, ?_⟩
  · rw [hd]; simp [finishDownload, h2]
  · rw [hd]; simp [finishDownload, h2]
  · rw [hd]; simp [finishDownload, h2]
  · intro hct; rw [hd]; simp [finishDownload, h2, hct]
  · intro j msg hct hj hm; rw [hd]; simp [finishDownload, h2, hct, hj, hm]
  · intro m hct hm; rw [hd]; simp [finishDownload, h2, hct, hm]
  · rw [ha]; simp [finishAnalyze, h2]
  · rw [ha]; simp [finishAnalyze, h2]
  · rw [ha]; simp [finishAnalyze, h2]
  · rw [ha]; simp [finishAnalyze, h2]
  · intro hct; rw [ha]; simp [finishAnalyze, h2, hct]
  · intro j hct hj; rw [ha]; simp [finishAnalyze, h2, hct, hj]
  · intro m hct hm; rw [ha]; simp [finishAnalyze, h2, hct, hm]

/-- Claim C6, witness: the amended theorem applied to concrete fixtures (a
paid first 402, a well-formed second 402). -/
theorem claim_C6_witness :
    (downloadDataset resp402Ex respOkJsonEx "out.csv" true true parseFloatEx
        envOkEx).proofHeader = some "5TxSigDemo" ∧
    (analyzeDataset abodyEx resp402Ex respOkJsonEx true parseFloatEx
        envOkEx).secondBody = some abodyEx ∧
    (downloadDataset resp402Ex respOkJsonEx "out.csv" true true parseFloatEx
        envOkEx).result =
      .ok ⟨false, some "Payment required", some 402, none, none, none⟩ :=
  ⟨((claim_C6 resp402Ex respOkJsonEx "out.csv" true parseFloatEx envOkEx
      "5TxSigDemo" 1 (some 100000) abodyEx rfl (by decide) rfl).1).2.1,
   ((claim_C6 resp402Ex respOkJsonEx "out.csv" true parseFloatEx envOkEx
      "5TxSigDemo" 1 (some 100000) abodyEx rfl (by decide) rfl).2).2.2.1,
   ((claim_C6 resp402Ex respOkJsonEx "out.csv" true parseFloatEx envOkEx
      "5TxSigDemo" 1 (some 100000) abodyEx rfl (by decide) rfl).1).2.2.2.2.2.1
     ⟨.ok (some "Payment required"), some "PAYMENT_REQUIRED"⟩
     (some "Payment required") rfl rfl rfl⟩

/-! ## Claim C7 -/

/-- Claim C7: at construction the RPC selector tests the primary endpoint
and otherwise adopts the first responding endpoint of the fixed ordered
backup list (entries equal to the primary are skipped, so the probing order
is the primary followed by the remaining backups); if every endpoint fails
it raises the connectivity error.  The selection result is stored in the
client state built by `__init__` — the only place `_init_solana_client` is
invoked — so it happens exactly once, never per call. -/
theorem claim_C7 :
    ∀ (env : String → Bool) (primary : String) (hasKey : Bool),
      initSolanaClient env primary = firstRespondingRpc env primary ∧
      clientInit env primary hasKey =
        (firstRespondingRpc env primary).map
          (fun u => (⟨u, hasKey⟩ : ClientState)) ∧
      ((env primary = false ∧ ∀ u ∈ backupRpcUrls, env u = false) →
        initSolanaClient env primary =
          .error "Failed to connect to any Solana RPC node") := by
  intro env primary hasKey
  have h1 : initSolanaClient env primary = firstRespondingRpc env primary := by
    by_cases hp : env primary
    · simp [initSolanaClient, firstRespondingRpc, hp, List.find?]
    · simp [initSolanaClient, firstRespondingRpc, hp, List.find?,
        tryBackups_eq env primary backupRpcUrls]
  refine ⟨h1, ?_, ?_⟩
  · unfold clientInit
    rw [h1]
  · rintro ⟨hp, hall⟩
    rw [h1]
    unfold firstRespondingRpc
    have hnone : (primary :: backupRpcUrls.filter
        (fun u => u ≠ primary)).find? env = none := by
      rw [List.find?_eq_none]
      intro x hx
      rcases List.mem_cons.mp hx with hx | hx
      · simp [hx, hp]
      · simp [hall x (List.mem_of_mem_filter hx)]
    rw [hnone]

/-- Claim C7, witness: with every endpoint unreachable, construction fails
with the connectivity error. -/
theorem claim_C7_witness :
    initSolanaClient (fun _ => false) "https://api.devnet.solana.com" =
      .error "Failed to connect to any Solana RPC node" :=
  (claim_C7 (fun _ => false) "https://api.devnet.solana.com" true).2.2
    ⟨rfl, by decide⟩

/-! ## Claim C8 -/

/-- Claim C8, counterexample: on a 402 response with no headers and no
parseable body, the detector does not surface every absent field as `None`:
the currency surfaces as the default `"USDC"` (and the network as
`"solana"`), both in `DataNexusClient.download_dataset` and in
`SimpleX402Client._handle_402_response`. -/
theorem claim_C8_counterexample :
    (parse402 (fun _ => none) none).currency = some "USDC" ∧
    (parse402 (fun _ => none) none).currency ≠ none ∧
    (parse402 (fun _ => none) none).network = some "solana" ∧
    (extract402Headers (fun _ => none)).currency = "USDC" := by
  decide

/-- Claim C8, amended: the detector never raises on missing optional fields
— it is a total function of the headers and the body parse — and absent
amount and recipient surface as `None` (facilitator and network likewise in
`_handle_402_response`); absent currency surfaces as the `"USDC"` default,
and in `DataNexusClient.download_dataset` absent network surfaces as the
`"solana"` default, not as `None`. -/
theorem claim_C8 :
    ∀ (h : String → Option String) (body : Option ErrorDetails)
      (bf : ErrorDetails),
      (parse402 h body).paymentRequired = true ∧
      ((parse402 h body).recipient = h "x-payment-recipient") ∧
      (h "x-payment-amount" = none → (parse402 h none).amount = none) ∧
      (h "x-payment-amount" = none → bf.price = none →
        (parse402 h (some bf)).amount = none) ∧
      (h "x-payment-currency" = none → bf.currency = none →
        (parse402 h (some bf)).currency = some "USDC") ∧
      (h "x-payment-currency" = none → (parse402 h none).currency = some "USDC") ∧
      (h "x-payment-network" = none → bf.network = none →
        (parse402 h (some bf)).network = some "solana") ∧
      (h "x-payment-network" = none → (parse402 h none).network = some "solana") ∧
      (extract402Headers h).amount = h "x-payment-amount" ∧
      (extract402Headers h).recipient = h "x-payment-recipient" ∧
      (extract402Headers h).network = h "x-payment-network" ∧
      (extract402Headers h).facilitator = h "x-payment-facilitator" ∧
      (h "x-payment-currency" = none → (extract402Headers h).currency = "USDC") := by
  intro h body bf
  refine ⟨?_, ?_, ?_, ?_, ?_, ?_, ?_, ?_, ?_, ?_, ?_, ?_, ?_⟩
  · cases body <;> simp [parse402]
  · cases body <;> simp [parse402]
  · intro hn; simp [parse402, hn]
  · intro hn hp; simp [parse402, pyOr, pyTruthy, hn, hp]
  · intro hn hc; simp [parse402, pyOr, pyTruthy, hn, hc]
  · intro hn; simp [parse402, hn]
  · intro hn hw; simp [parse402, pyOr, pyTruthy, hn, hw]
  · intro hn; simp [parse402, hn]
  · simp [extract402Headers]
  · simp [extract402Headers]
  · simp [extract402Headers]
  · simp [extract402Headers]
  · intro hn; simp [extract402Headers, hn]

/-- Claim C8, witness: the amended theorem applied to the all-absent 402. -/
theorem claim_C8_witness :
    (parse402 (fun _ => none) (some ⟨none, none, none, none⟩)).amount = none :=
  (claim_C8 (fun _ => none) (some ⟨none, none, none, none⟩)
      ⟨none, none, none, none⟩).2.2.2.1 rfl rfl

/-! ## Claim C9 -/

/-- Claim C9: when the first request returns 200, `download_dataset` saves
the body directly and returns success; the payment executor is never
invoked and no second request is issued. -/
theorem claim_C9 :
    ∀ (resp1 resp2 : Resp) (path : String) (hasKeypair autoPay : Bool)
      (parseFloat : String → Option Frac) (env : Nat → SubmitOutcome),
      resp1.status = 200 →
      downloadDataset resp1 resp2 path hasKeypair autoPay parseFloat env =
        ⟨.ok ⟨true, none, none, some path, some resp1.contentLen, none⟩,
         0, false, none, true⟩ := by
  intro r1 r2 path hk ap pf env h
  simp [downloadDataset, finishDownload, h]

/-- Claim C9, witness: the theorem applied to the concrete 200 fixture. -/
theorem claim_C9_witness :
    downloadDataset resp200Ex resp402Ex "d.csv" true true parseFloatEx
        (allFailEnv "x") =
      ⟨.ok ⟨true, none, none, some "d.csv", some 1234, none⟩,
       0, false, none, true⟩ :=
  claim_C9 resp200Ex resp402Ex "d.csv" true true parseFloatEx
    (allFailEnv "x") rfl

/-! ## Claim C10 -/

/-- Claim C10: `purchase_dataset` raises `ValueError` before issuing any
HTTP request exactly when `payment_method` is `'solana'` without a truthy
`payment_tx_hash`, `'x402'` without a truthy `x402_token`, or any other
method; for valid combinations it sends the purchase body with the
corresponding payment field set (Python truthiness: `None` and the empty
string count as missing). -/
theorem claim_C10 :
    ∀ (method : String) (txHash x402tok : Option String),
      ((∃ e, purchaseDataset method txHash x402tok = .error e) ↔
        ((method = "solana" ∧ pyTruthy txHash = false) ∨
         (method = "x402" ∧ pyTruthy x402tok = false) ∨
         (method ≠ "solana" ∧ method ≠ "x402"))) ∧
      (method = "solana" → pyTruthy txHash = true →
        purchaseDataset method txHash x402tok = .ok ⟨"solana", txHash, none⟩) ∧
      (method = "x402" → pyTruthy x402tok = true →
        purchaseDataset method txHash x402tok = .ok ⟨"x402", none, x402tok⟩) := by
  intro method tx xt
  by_cases h1 : method = "solana"
  · by_cases h2 : pyTruthy tx <;> simp [purchaseDataset, h1, h2]
  · by_cases h3 : method = "x402"
    · by_cases h4 : pyTruthy xt <;> simp [purchaseDataset, h1, h3, h4]
    · simp [purchaseDataset, h1, h3]

/-- Claim C10, witness: both valid argument combinations produce the
expected request bodies. -/
theorem claim_C10_witness :
    purchaseDataset "solana" (some "3xTxHash") none =
      .ok ⟨"solana", some "3xTxHash", none⟩ ∧
    purchaseDataset "x402" none (some "tok99") =
      .ok ⟨"x402", none, some "tok99"⟩ :=
  ⟨(claim_C10 "solana" (some "3xTxHash") none).2.1 rfl (by decide),
   (claim_C10 "x402" none (some "tok99")).2.2 rfl (by decide)⟩

end DataNexus
